import Mathlib

/-!
Verification of the EB-2 NIW green-card timeline estimator (`src/run.py`).

The development shallowly embeds the two cores of the program:

* the bulletin resolver (`get_latest_visa_bulletin_url`, `parse_visa_date`,
  `normalize_df`, `scrape_visa_bulletin` and the session-state assignment of
  the scraped pair, lines 14-212 of `run.py`), and
* the timeline calculator (the date-arithmetic block guarded by
  `if niw_start:`, lines 266-329).

Calendar dates are represented by their day ordinal (an integer), with
`toDay`/`toDayZ` converting a Gregorian `(year, month, day)` triple to that
ordinal (proleptic Gregorian, Hinnant's `days_from_civil` algorithm), so that
Python's `date2 - date1 = timedelta(days=n)` becomes integer subtraction and
`date + timedelta(days=n)` becomes integer addition.  Python `date` values
manipulated field-wise (`.replace(day=1)`, `.month`, `.year`, `strftime`) are
represented by the `PyDate` triple together with the day-successor based
`PyDate.addDays`, which agrees with Python's calendar arithmetic.

Fractional month counts coming from `st.number_input` are rationals; Python's
`int(x * 30)` truncation toward zero is `pyInt`.
-/

/-- Python's `int()` applied to a rational: truncation toward zero
(`int(months * 30)` in lines 269-275 of `run.py`). -/
def pyInt (q : ℚ) : ℤ := q.num.tdiv q.den

lemma pyInt_intCast (n : ℤ) : pyInt ((n : ℤ) : ℚ) = n := by
  show Int.tdiv _ _ = n
  rw [Rat.num_intCast, Rat.den_intCast]
  exact Int.tdiv_one n

lemma pyInt_eval (q : ℚ) (n : ℤ) (h : q = ((n : ℤ) : ℚ)) : pyInt q = n := by
  rw [h, pyInt_intCast]

lemma pyInt_nonneg (q : ℚ) (h : 0 ≤ q) : 0 ≤ pyInt q :=
  Int.tdiv_nonneg (Rat.num_nonneg.mpr h) (Int.ofNat_nonneg _)

lemma pyInt_zero30 : pyInt ((0 : ℚ) * 30) = 0 := pyInt_eval _ 0 (by norm_num)

lemma pyInt_one30 : pyInt ((1 : ℚ) * 30) = 30 := pyInt_eval _ 30 (by norm_num)

lemma pyInt_two30 : pyInt ((2 : ℚ) * 30) = 60 := pyInt_eval _ 60 (by norm_num)

lemma pyInt_three30 : pyInt ((3 : ℚ) * 30) = 90 := pyInt_eval _ 90 (by norm_num)

lemma pyInt_four30 : pyInt ((4 : ℚ) * 30) = 120 := pyInt_eval _ 120 (by norm_num)

lemma pyInt_six30 : pyInt ((6 : ℚ) * 30) = 180 := pyInt_eval _ 180 (by norm_num)

lemma pyInt_eight30 : pyInt ((8 : ℚ) * 30) = 240 := pyInt_eval _ 240 (by norm_num)

/-- Gregorian leap-year test. -/
def isLeap (y : ℕ) : Bool := (y % 4 == 0 && y % 100 != 0) || y % 400 == 0

/-- Length of month `m` (1-12) of year `y` in the Gregorian calendar. -/
def daysInMonth (y m : ℕ) : ℕ :=
  if m = 2 then (if isLeap y then 29 else 28)
  else if m = 4 ∨ m = 6 ∨ m = 9 ∨ m = 11 then 30
  else 31

/-- Day ordinal of the Gregorian date `y-m-d` (days since 0000-03-01 in the
proleptic calendar; Hinnant's `days_from_civil`).  Differences of ordinals are
exactly Python's `(d2 - d1).days`. -/
def toDay (y m d : ℕ) : ℕ :=
  let ys := if m ≤ 2 then y - 1 else y
  let era := ys / 400
  let yoe := ys % 400
  let mp := (m + 9) % 12
  let doy := (153 * mp + 2) / 5 + (d - 1)
  let doe := yoe * 365 + yoe / 4 + doy - yoe / 100
  era * 146097 + doe

/-- `toDay` as an integer, the representation used by the calculator. -/
def toDayZ (y m d : ℕ) : ℤ := (toDay y m d : ℤ)

/-- A Python `datetime.date` as the field triple it exposes. -/
structure PyDate where
  year : ℕ
  month : ℕ
  day : ℕ
deriving DecidableEq, Repr

/-- Calendar successor of a date. -/
def PyDate.next (dt : PyDate) : PyDate :=
  if dt.day < daysInMonth dt.year dt.month then ⟨dt.year, dt.month, dt.day + 1⟩
  else if dt.month < 12 then ⟨dt.year, dt.month + 1, 1⟩
  else ⟨dt.year + 1, 1, 1⟩

/-- `date + timedelta(days=n)` for `n ≥ 0`, as iterated calendar successor. -/
def PyDate.addDays (dt : PyDate) : ℕ → PyDate
  | 0 => dt
  | n + 1 => PyDate.addDays dt.next n

/- --------------------------------------------------------------------------
TimelineCalculator: the `if niw_start:` block, `run.py` lines 266-329.
All user durations arrive as fractional month counts and are converted once
via `int(months * 30)`.
-------------------------------------------------------------------------- -/

/-- The user inputs consumed by the calculation block (widget values of
lines 151-190 of `run.py`).  Dates are day ordinals. -/
structure CaseInputs where
  niw_start : ℤ
  letters_months : ℚ
  petition_months : ℚ
  premium : Bool
  rfe_toggle : Bool
  i485_processing_months : ℚ
  ead_months : ℚ
  i140_user_filed : ℤ
deriving DecidableEq

/-- Line 156 of `run.py`: `i140_approval_months = 4`.  The spec treats this
constant as a configurable input, so the calculator below takes it as an
explicit parameter `am`; this is the value the application passes. -/
def i140_approval_months : ℚ := 4

/-- Lines 159-164: the RFE response duration is 2 months when the RFE toggle
is on and 0 otherwise. -/
def rfe_response_months (rfe_toggle : Bool) : ℚ := if rfe_toggle then 2 else 0

/-- Lines 159-164: the RFE review duration is 3 months when the RFE toggle is
on and 0 otherwise. -/
def rfe_review_months (rfe_toggle : Bool) : ℚ := if rfe_toggle then 3 else 0

/-- Line 269. -/
def letters_days (c : CaseInputs) : ℤ := pyInt (c.letters_months * 30)

/-- Line 270. -/
def petition_days (c : CaseInputs) : ℤ := pyInt (c.petition_months * 30)

/-- Line 271, with the approval-months constant as parameter `am`. -/
def i140_days (am : ℚ) : ℤ := pyInt (am * 30)

/-- Line 272. -/
def rfe_response_days (c : CaseInputs) : ℤ :=
  pyInt (rfe_response_months c.rfe_toggle * 30)

/-- Line 273. -/
def rfe_review_days (c : CaseInputs) : ℤ :=
  pyInt (rfe_review_months c.rfe_toggle * 30)

/-- Line 274. -/
def i485_days (c : CaseInputs) : ℤ := pyInt (c.i485_processing_months * 30)

/-- Line 275. -/
def ead_days (c : CaseInputs) : ℤ := pyInt (c.ead_months * 30)

/-- Line 280. -/
def letters_done (c : CaseInputs) : ℤ := c.niw_start + letters_days c

/-- Line 281. -/
def petition_ready (c : CaseInputs) : ℤ := letters_done c + petition_days c

/-- Line 286. -/
def i140_filed (c : CaseInputs) : ℤ := c.i140_user_filed

/-- Line 287. -/
def priority_date (c : CaseInputs) : ℤ := i140_filed c

/-- Lines 289-297: premium processing gives a fixed 45-day approval, otherwise
the regular `i140_days` apply; when an RFE is expected the estimate is
overwritten by the RFE path (`//` is Python floor division, `Int.fdiv`). -/
def i140_approved (am : ℚ) (c : CaseInputs) : ℤ :=
  let base := if c.premium then i140_filed c + 45 else i140_filed c + i140_days am
  if c.rfe_toggle then
    let rfe_issued := i140_filed c + Int.fdiv (i140_days am) 2
    let rfe_responded := rfe_issued + rfe_response_days c
    rfe_responded + rfe_review_days c
  else base

/-- Line 302: `max(0, (priority_date - filing_cutoff).days)`. -/
def backlog_filing_days (c : CaseInputs) (filing_cutoff : ℤ) : ℤ :=
  max 0 (priority_date c - filing_cutoff)

/-- Line 303: `max(0, (priority_date - final_cutoff).days)`. -/
def backlog_final_days (c : CaseInputs) (final_cutoff : ℤ) : ℤ :=
  max 0 (priority_date c - final_cutoff)

/-- Line 308. -/
def i485_eligible_date (am : ℚ) (c : CaseInputs) (filing_cutoff : ℤ) : ℤ :=
  i140_approved am c + backlog_filing_days c filing_cutoff

/-- Line 313. -/
def final_action_date (am : ℚ) (c : CaseInputs) (filing_cutoff final_cutoff : ℤ) : ℤ :=
  i485_eligible_date am c filing_cutoff + backlog_final_days c final_cutoff

/-- Line 314. -/
def ead_received (am : ℚ) (c : CaseInputs) (filing_cutoff : ℤ) : ℤ :=
  i485_eligible_date am c filing_cutoff + ead_days c

/-- Line 315. -/
def gc_received (am : ℚ) (c : CaseInputs) (filing_cutoff final_cutoff : ℤ) : ℤ :=
  final_action_date am c filing_cutoff final_cutoff + i485_days c

/-- Lines 320-329: the ordered milestone table. -/
def milestones (am : ℚ) (c : CaseInputs) (filing_cutoff final_cutoff : ℤ) :
    List (String × ℤ) :=
  [("NIW Preparation Started", c.niw_start),
   ("Letters Completed", letters_done c),
   ("I-140 Filed (Priority Date)", priority_date c),
   ("I-140 Approved", i140_approved am c),
   ("I-485 Eligible to File", i485_eligible_date am c filing_cutoff),
   ("EAD/AP Received", ead_received am c filing_cutoff),
   ("Final Action Current", final_action_date am c filing_cutoff final_cutoff),
   ("Green Card Approved", gc_received am c filing_cutoff final_cutoff)]

/-- `c` with the RFE toggle replaced by `b` and every other input unchanged. -/
def withRfe (c : CaseInputs) (b : Bool) : CaseInputs :=
  ⟨c.niw_start, c.letters_months, c.petition_months, c.premium, b,
   c.i485_processing_months, c.ead_months, c.i140_user_filed⟩

lemma rfe_response_days_on (c : CaseInputs) (h : c.rfe_toggle = true) :
    rfe_response_days c = 60 := by
  rw [rfe_response_days, rfe_response_months, h]
  simpa using pyInt_two30

lemma rfe_review_days_on (c : CaseInputs) (h : c.rfe_toggle = true) :
    rfe_review_days c = 90 := by
  rw [rfe_review_days, rfe_review_months, h]
  simpa using pyInt_three30

lemma rfe_response_days_nonneg (c : CaseInputs) : 0 ≤ rfe_response_days c := by
  refine pyInt_nonneg _ ?_
  rw [rfe_response_months]
  rcases c.rfe_toggle <;> norm_num

lemma rfe_review_days_nonneg (c : CaseInputs) : 0 ≤ rfe_review_days c := by
  refine pyInt_nonneg _ ?_
  rw [rfe_review_months]
  rcases c.rfe_toggle <;> norm_num

/-- Claim C2: if the priority date is on or before both cutoffs, both backlog
offsets are 0, the I-485 eligibility date coincides with the I-140 approval
date, and the final-action date coincides with the I-485 eligibility date. -/
theorem current_priority_no_backlog (am : ℚ) (c : CaseInputs)
    (filing_cutoff final_cutoff : ℤ)
    (h1 : priority_date c ≤ filing_cutoff) (h2 : priority_date c ≤ final_cutoff) :
    backlog_filing_days c filing_cutoff = 0 ∧
    backlog_final_days c final_cutoff = 0 ∧
    i485_eligible_date am c filing_cutoff = i140_approved am c ∧
    final_action_date am c filing_cutoff final_cutoff =
      i485_eligible_date am c filing_cutoff := by
  unfold final_action_date i485_eligible_date backlog_filing_days backlog_final_days
  omega

def c2w : CaseInputs := ⟨0, 0, 0, false, false, 8, 4, 5⟩

theorem current_priority_no_backlog_witness :
    priority_date c2w ≤ 10 ∧ priority_date c2w ≤ 12 ∧
    (backlog_filing_days c2w 10 = 0 ∧
     backlog_final_days c2w 12 = 0 ∧
     i485_eligible_date 4 c2w 10 = i140_approved 4 c2w ∧
     final_action_date 4 c2w 10 12 = i485_eligible_date 4 c2w 10) :=
  ⟨by decide, by decide,
   current_priority_no_backlog 4 c2w 10 12 (by decide) (by decide)⟩

/-- Claim C3: with the application's approval-months constant, enabling the
RFE toggle (all other inputs unchanged) yields a strictly later I-140
approval date whenever the RFE response and review day counts of the RFE run
sum to something positive. -/
theorem rfe_strictly_delays_i140 (c : CaseInputs)
    (h : 0 < rfe_response_days (withRfe c true) + rfe_review_days (withRfe c true)) :
    i140_approved i140_approval_months (withRfe c false) <
      i140_approved i140_approval_months (withRfe c true) := by
  have hdays : i140_days i140_approval_months = 120 := by
    rw [i140_days, i140_approval_months]
    exact pyInt_four30
  have hresp := rfe_response_days_on (withRfe c true) rfl
  have hrev := rfe_review_days_on (withRfe c true) rfl
  have hfd : Int.fdiv (120 : ℤ) 2 = 60 := by decide
  have hon : i140_approved i140_approval_months (withRfe c true) =
      c.i140_user_filed + 60 + 60 + 90 := by
    rw [i140_approved]
    simp only [show (withRfe c true).rfe_toggle = true from rfl, if_true]
    rw [hdays, hresp, hrev, hfd]
    rfl
  have hoff : i140_approved i140_approval_months (withRfe c false) =
      if c.premium then c.i140_user_filed + 45 else c.i140_user_filed + 120 := by
    rw [i140_approved]
    simp only [show (withRfe c false).rfe_toggle = false from rfl,
      Bool.false_eq_true, if_false, hdays]
    rfl
  rw [hon, hoff]
  rcases c.premium <;> simp <;> omega

def c3w : CaseInputs := ⟨0, 0, 0, false, false, 8, 4, 0⟩

theorem rfe_strictly_delays_i140_witness :
    0 < rfe_response_days (withRfe c3w true) + rfe_review_days (withRfe c3w true) ∧
    i140_approved i140_approval_months (withRfe c3w false) <
      i140_approved i140_approval_months (withRfe c3w true) :=
  ⟨by
    rw [rfe_response_days_on (withRfe c3w true) rfl,
      rfe_review_days_on (withRfe c3w true) rfl]
    norm_num,
   rfe_strictly_delays_i140 c3w (by
    rw [rfe_response_days_on (withRfe c3w true) rfl,
      rfe_review_days_on (withRfe c3w true) rfl]
    norm_num)⟩

def c4c : CaseInputs := ⟨0, 0, 0, true, true, 8, 4, 0⟩

/-- Claim C4, counterexample: with the premium flag set but an RFE also
expected, two runs that differ only in the approval-months input (4 vs 6
months) produce different I-140 approval dates, because the RFE path
overwrites the premium estimate using `i140_days // 2`. -/
theorem premium_independence_counterexample :
    c4c.premium = true ∧ ¬ i140_approved 4 c4c = i140_approved 6 c4c := by
  constructor
  · rfl
  · have h4 : i140_days 4 = 120 := by rw [i140_days]; exact pyInt_four30
    have h6 : i140_days 6 = 180 := by rw [i140_days]; exact pyInt_six30
    have hresp := rfe_response_days_on c4c rfl
    have hrev := rfe_review_days_on c4c rfl
    simp only [i140_approved, h4, h6, hresp, hrev, c4c]
    norm_num [i140_filed, Int.fdiv]

/-- Claim C4 as amended: when the premium flag is set and no RFE is expected,
the I-140 approval date is independent of the approval-months input; the
independence claimed by the spec fails only on the RFE path, which overwrites
the premium estimate. -/
theorem premium_independent_of_approval_months (am1 am2 : ℚ) (c : CaseInputs)
    (hp : c.premium = true) (hr : c.rfe_toggle = false) :
    i140_approved am1 c = i140_approved am2 c := by
  simp [i140_approved, hp, hr]

def c4w : CaseInputs := ⟨0, 0, 0, true, false, 8, 4, 0⟩

theorem premium_independent_of_approval_months_witness :
    c4w.premium = true ∧ c4w.rfe_toggle = false ∧
    i140_approved 4 c4w = i140_approved 6 c4w :=
  ⟨rfl, rfl, premium_independent_of_approval_months 4 6 c4w rfl rfl⟩

/-- Claim C9: with non-negative duration day counts the milestone chain is
monotone: priority date ≤ I-140 approval ≤ I-485 eligibility ≤ final action ≤
green card, and I-485 eligibility ≤ EAD receipt — for every premium/RFE flag
combination and every pair of cutoffs. -/
theorem milestone_chain_monotone (am : ℚ) (c : CaseInputs)
    (filing_cutoff final_cutoff : ℤ)
    (h1 : 0 ≤ i140_days am) (h2 : 0 ≤ i485_days c) (h3 : 0 ≤ ead_days c) :
    priority_date c ≤ i140_approved am c ∧
    i140_approved am c ≤ i485_eligible_date am c filing_cutoff ∧
    i485_eligible_date am c filing_cutoff ≤
      final_action_date am c filing_cutoff final_cutoff ∧
    final_action_date am c filing_cutoff final_cutoff ≤
      gc_received am c filing_cutoff final_cutoff ∧
    i485_eligible_date am c filing_cutoff ≤ ead_received am c filing_cutoff := by
  have hf : 0 ≤ Int.fdiv (i140_days am) 2 := Int.fdiv_nonneg h1 (by norm_num)
  have hresp := rfe_response_days_nonneg c
  have hrev := rfe_review_days_nonneg c
  unfold gc_received ead_received final_action_date i485_eligible_date
    i140_approved backlog_filing_days backlog_final_days priority_date
  rcases hr : c.rfe_toggle <;> rcases hp : c.premium <;>
    simp only [if_true, if_false, Bool.false_eq_true] <;> omega

def c9w : CaseInputs := ⟨0, 0, 0, false, true, 8, 4, 100⟩

theorem milestone_chain_monotone_witness :
    0 ≤ i140_days 4 ∧ 0 ≤ i485_days c9w ∧ 0 ≤ ead_days c9w ∧
    (priority_date c9w ≤ i140_approved 4 c9w ∧
     i140_approved 4 c9w ≤ i485_eligible_date 4 c9w 7 ∧
     i485_eligible_date 4 c9w 7 ≤ final_action_date 4 c9w 7 3 ∧
     final_action_date 4 c9w 7 3 ≤ gc_received 4 c9w 7 3 ∧
     i485_eligible_date 4 c9w 7 ≤ ead_received 4 c9w 7) :=
  ⟨by rw [i140_days]; exact pyInt_nonneg _ (by norm_num),
   by rw [i485_days]; exact pyInt_nonneg _ (by norm_num [c9w]),
   by rw [ead_days]; exact pyInt_nonneg _ (by norm_num [c9w]),
   milestone_chain_monotone 4 c9w 7 3
     (by rw [i140_days]; exact pyInt_nonneg _ (by norm_num))
     (by rw [i485_days]; exact pyInt_nonneg _ (by norm_num [c9w]))
     (by rw [ead_days]; exact pyInt_nonneg _ (by norm_num [c9w]))⟩

def c8_inputs : CaseInputs :=
  ⟨toDayZ 2026 2 1, 0, 1, false, false, 8, 4, toDayZ 2026 2 1⟩

/-- Claim C8: the end-to-end scenario (prep start 2026-02-01, no letters, one
petition month, no premium, no RFE, 4 approval months, priority date
2026-02-01, filing cutoff 2025-01-01, final cutoff 2024-06-01, 8 I-485 months,
4 EAD months) yields a filing backlog of 396 days, I-140 approval on
2026-06-01 (exactly 120 days after the priority date), I-485 eligibility 396
days after approval, a final backlog of 610 days, and a milestone list whose
dates are non-decreasing in the listed order. -/
theorem end_to_end_scenario :
    backlog_filing_days c8_inputs (toDayZ 2025 1 1) = 396 ∧
    backlog_final_days c8_inputs (toDayZ 2024 6 1) = 610 ∧
    i140_approved 4 c8_inputs = toDayZ 2026 6 1 ∧
    i140_approved 4 c8_inputs = priority_date c8_inputs + 120 ∧
    i485_eligible_date 4 c8_inputs (toDayZ 2025 1 1) =
      i140_approved 4 c8_inputs + 396 ∧
    List.Chain' (fun a b => a ≤ b)
      ((milestones 4 c8_inputs (toDayZ 2025 1 1) (toDayZ 2024 6 1)).map Prod.snd) := by
  have h0 : letters_days c8_inputs = 0 := by rw [letters_days]; exact pyInt_zero30
  have h1 : petition_days c8_inputs = 30 := by rw [petition_days]; exact pyInt_one30
  have h4 : i140_days 4 = 120 := by rw [i140_days]; exact pyInt_four30
  have h8 : i485_days c8_inputs = 240 := by rw [i485_days]; exact pyInt_eight30
  have he : ead_days c8_inputs = 120 := by rw [ead_days]; exact pyInt_four30
  have d1 : toDayZ 2026 2 1 = 739953 := by decide
  have d2 : toDayZ 2025 1 1 = 739557 := by decide
  have d3 : toDayZ 2024 6 1 = 739343 := by decide
  have d4 : toDayZ 2026 6 1 = 740073 := by decide
  have dn : c8_inputs.niw_start = 739953 := d1
  have du : c8_inputs.i140_user_filed = 739953 := d1
  simp only [milestones, List.map, backlog_filing_days, backlog_final_days,
    gc_received, final_action_date, ead_received, i485_eligible_date,
    i140_approved, letters_done, priority_date, i140_filed,
    show c8_inputs.rfe_toggle = false from rfl,
    show c8_inputs.premium = false from rfl,
    Bool.false_eq_true, if_false, h0, h1, h4, h8, he, d1, d2, d3, d4, dn, du,
    List.chain'_cons, List.chain'_singleton, true_and, and_true]
  omega

/- --------------------------------------------------------------------------
String helpers shared by `parse_visa_date` and `normalize_df`
(`run.py` lines 33-73).  All work on character lists so that concrete
instances evaluate inside the kernel.
-------------------------------------------------------------------------- -/

/-- The characters Python's `str.strip()` and the regex class `\s` treat as
whitespace in the label data: space, tab, newline, carriage return, vertical
tab, form feed and the non-breaking space U+00A0. -/
def pyWS (ch : Char) : Bool :=
  ch = ' ' || ch = '\t' || ch = '\n' || ch = '\r' ||
  ch = Char.ofNat 11 || ch = Char.ofNat 12 || ch = Char.ofNat 160

def stripChars (cs : List Char) : List Char :=
  ((cs.dropWhile pyWS).reverse.dropWhile pyWS).reverse

/-- Python `str.strip()` (line 45 of `run.py`). -/
def stripWS (s : String) : String := String.mk (stripChars s.data)

/-- The regex substitution `\s+` → `" "`: every maximal run of whitespace
characters becomes a single space. -/
def collapseRuns : List Char → List Char
  | [] => []
  | [ch] => if pyWS ch then [' '] else [ch]
  | ch :: ch2 :: rest =>
    if pyWS ch && pyWS ch2 then collapseRuns (ch2 :: rest)
    else (if pyWS ch then ' ' else ch) :: collapseRuns (ch2 :: rest)

/-- `normalize_df`'s label transform (lines 56-73): strip, collapse internal
whitespace runs to one space, drop non-breaking spaces, uppercase. -/
def normalizeLabel (s : String) : String :=
  String.mk
    (((collapseRuns (stripChars s.data)).filter
        (fun ch => !(ch = Char.ofNat 160))).map Char.toUpper)

/-- Naive substring search on character lists. -/
def containsSub (hay pat : List Char) : Bool :=
  match hay with
  | [] => pat.isEmpty
  | _ :: t => pat.isPrefixOf hay || containsSub t pat

/-- `first_row.str.contains("Employment", case=False)` for one cell
(line 90 of `run.py`). -/
def containsEmployment (cell : String) : Bool :=
  containsSub (cell.data.map Char.toLower) ("employment".data)

/- --------------------------------------------------------------------------
`parse_visa_date` (`run.py` lines 33-53)
-------------------------------------------------------------------------- -/

/-- The universe of values a bulletin cell can present to `parse_visa_date`:
a missing value (`pd.isna` true), an already-parsed `datetime`/`Timestamp`
(carrying the day ordinal of its `.date()`), an already-parsed `date`, or a
raw string. -/
inductive CellVal where
  | nan : CellVal
  | timestamp : ℤ → CellVal
  | pydate : ℤ → CellVal
  | str : String → CellVal
deriving DecidableEq

/-- Result of `parse_visa_date`: a returned `Optional[date]`, or an uncaught
`ValueError` raised by `datetime.strptime`. -/
inductive ParseResult where
  | ok : Option ℤ → ParseResult
  | valueError : ParseResult
deriving DecidableEq

def digitVal (ch : Char) : ℕ := ch.toNat - 48

/-- The `%d` field of `strptime`: one or two digits with value 1-31
(two digits preferred, matching the CPython pattern
`3[01]|[12]\d|0[1-9]|[1-9]`). -/
def readDay : List Char → Option (ℕ × List Char)
  | [] => none
  | [c1] => if c1.isDigit && 1 ≤ digitVal c1 then some (digitVal c1, []) else none
  | c1 :: c2 :: rest =>
    if c1.isDigit && c2.isDigit then
      let v := digitVal c1 * 10 + digitVal c2
      if 1 ≤ v && v ≤ 31 then some (v, rest)
      else if 1 ≤ digitVal c1 then some (digitVal c1, c2 :: rest)
      else none
    else if c1.isDigit && 1 ≤ digitVal c1 then some (digitVal c1, c2 :: rest)
    else none

def monthIdx (s : String) : Option ℕ :=
  if s = "jan" then some 1 else if s = "feb" then some 2
  else if s = "mar" then some 3 else if s = "apr" then some 4
  else if s = "may" then some 5 else if s = "jun" then some 6
  else if s = "jul" then some 7 else if s = "aug" then some 8
  else if s = "sep" then some 9 else if s = "oct" then some 10
  else if s = "nov" then some 11 else if s = "dec" then some 12
  else none

/-- The `%b` field: a three-letter month abbreviation, case-insensitive. -/
def readMonth : List Char → Option (ℕ × List Char)
  | c1 :: c2 :: c3 :: rest =>
    match monthIdx (String.mk ([c1, c2, c3].map Char.toLower)) with
    | some m => some (m, rest)
    | none => none
  | _ => none

/-- The `%y` field: exactly two digits terminating the string (`strptime`
rejects trailing unconverted data); 00-68 map to 2000-2068, 69-99 to
1969-1999. -/
def readYear2 : List Char → Option ℕ
  | [c1, c2] =>
    if c1.isDigit && c2.isDigit then
      let yy := digitVal c1 * 10 + digitVal c2
      some (if yy ≤ 68 then 2000 + yy else 1900 + yy)
    else none
  | _ => none

/-- `datetime.strptime(val, "%d%b%y").date()` as a day ordinal; `none` means
the call raises `ValueError` (bad shape, or a day out of range for the
month). -/
def parseCompact (s : String) : Option ℤ :=
  match readDay s.data with
  | none => none
  | some (d, rest1) =>
    match readMonth rest1 with
    | none => none
    | some (m, rest2) =>
      match readYear2 rest2 with
      | none => none
      | some y => if d ≤ daysInMonth y m then some (toDayZ y m d) else none

/-- `parse_visa_date` (lines 33-53): `pd.isna` values give `None`;
`datetime`/`Timestamp` values give their `.date()`; `date` values pass
through; strings are stripped, `"C"` gives today's date, `"U"` gives `None`,
and anything else goes to `strptime` with format `%d%b%y`, whose failure
propagates as a `ValueError`. -/
def parse_visa_date (v : CellVal) (today : ℤ) : ParseResult :=
  match v with
  | .nan => .ok none
  | .timestamp d => .ok (some d)
  | .pydate d => .ok (some d)
  | .str s =>
    let t := stripWS s
    if t = "C" then .ok (some today)
    else if t = "U" then .ok none
    else
      match parseCompact t with
      | some d => .ok (some d)
      | none => .valueError

/-- Claim C7: cell text `"C"` parses to today's date, `"U"` parses to
unavailable (`None`), other strings go through the compact `%d%b%y` format
(two concrete examples shown), and a string that matches none of these raises
a hard `ValueError` instead of being converted to a default. -/
theorem cutoff_cell_parsing (today : ℤ) (s : String)
    (hC : stripWS s ≠ "C") (hU : stripWS s ≠ "U")
    (hbad : parseCompact (stripWS s) = none) :
    parse_visa_date (CellVal.str "C") today = ParseResult.ok (some today) ∧
    parse_visa_date (CellVal.str "U") today = ParseResult.ok none ∧
    parse_visa_date (CellVal.str "01JAN25") today =
      ParseResult.ok (some (toDayZ 2025 1 1)) ∧
    parse_visa_date (CellVal.str "08oct13") today =
      ParseResult.ok (some (toDayZ 2013 10 8)) ∧
    parse_visa_date (CellVal.str s) today = ParseResult.valueError := by
  refine ⟨rfl, rfl, rfl, rfl, ?_⟩
  simp only [parse_visa_date]
  rw [if_neg hC, if_neg hU, hbad]

theorem cutoff_cell_parsing_witness :
    stripWS "banana" ≠ "C" ∧ stripWS "banana" ≠ "U" ∧
    parseCompact (stripWS "banana") = none ∧
    (parse_visa_date (CellVal.str "C") 7 = ParseResult.ok (some 7) ∧
     parse_visa_date (CellVal.str "U") 7 = ParseResult.ok none ∧
     parse_visa_date (CellVal.str "01JAN25") 7 =
       ParseResult.ok (some (toDayZ 2025 1 1)) ∧
     parse_visa_date (CellVal.str "08oct13") 7 =
       ParseResult.ok (some (toDayZ 2013 10 8)) ∧
     parse_visa_date (CellVal.str "banana") 7 = ParseResult.valueError) :=
  ⟨by decide, by decide, by decide,
   cutoff_cell_parsing 7 "banana" (by decide) (by decide) (by decide)⟩

/-- Claim C10, counterexample: the empty string — which is not a non-empty
string, is distinct from `"C"` and `"U"`, and survives stripping unchanged —
is nevertheless handed to the compact-format parser, whose failure it
reports as a `ValueError`; so it is not true that only non-empty strings
other than `"C"` and `"U"` go through compact-format parsing. -/
theorem empty_string_counterexample :
    ("" : String) ≠ "C" ∧ ("" : String) ≠ "U" ∧ stripWS "" = "" ∧
    parseCompact (stripWS "") = none ∧
    parse_visa_date (CellVal.str "") 0 = ParseResult.valueError := by
  refine ⟨by decide, by decide, rfl, rfl, rfl⟩

/-- Claim C10 as amended: a missing/NaN cell returns `None` (the same result
as `"U"`), a `datetime`/`Timestamp` or `date` value passes through as its
date, and every string whose stripped form is neither `"C"` nor `"U"` —
the empty string included — goes through compact-format parsing, returning
its date on success and raising `ValueError` on failure. -/
theorem parse_visa_date_permissive (t d : ℤ) (s : String)
    (hC : stripWS s ≠ "C") (hU : stripWS s ≠ "U") :
    parse_visa_date CellVal.nan t = ParseResult.ok none ∧
    parse_visa_date CellVal.nan t = parse_visa_date (CellVal.str "U") t ∧
    parse_visa_date (CellVal.timestamp d) t = ParseResult.ok (some d) ∧
    parse_visa_date (CellVal.pydate d) t = ParseResult.ok (some d) ∧
    parse_visa_date (CellVal.str s) t =
      (match parseCompact (stripWS s) with
       | some r => ParseResult.ok (some r)
       | none => ParseResult.valueError) := by
  refine ⟨rfl, rfl, rfl, rfl, ?_⟩
  simp only [parse_visa_date]
  rw [if_neg hC, if_neg hU]

theorem parse_visa_date_permissive_witness :
    stripWS "xx" ≠ "C" ∧ stripWS "xx" ≠ "U" ∧
    (parse_visa_date CellVal.nan 3 = ParseResult.ok none ∧
     parse_visa_date CellVal.nan 3 = parse_visa_date (CellVal.str "U") 3 ∧
     parse_visa_date (CellVal.timestamp 9) 3 = ParseResult.ok (some 9) ∧
     parse_visa_date (CellVal.pydate 9) 3 = ParseResult.ok (some 9) ∧
     parse_visa_date (CellVal.str "xx") 3 =
       (match parseCompact (stripWS "xx") with
        | some r => ParseResult.ok (some r)
        | none => ParseResult.valueError)) :=
  ⟨by decide, by decide,
   parse_visa_date_permissive 3 9 "xx" (by decide) (by decide)⟩

/- --------------------------------------------------------------------------
`get_latest_visa_bulletin_url` (`run.py` lines 14-30)
-------------------------------------------------------------------------- -/

lemma daysInMonth_ge (y m : ℕ) : 28 ≤ daysInMonth y m := by
  unfold daysInMonth
  split_ifs <;> omega

lemma daysInMonth_le (y m : ℕ) : daysInMonth y m ≤ 31 := by
  unfold daysInMonth
  split_ifs <;> omega

lemma addDays_append (a : ℕ) : ∀ (dt : PyDate) (b : ℕ),
    PyDate.addDays dt (a + b) = PyDate.addDays (PyDate.addDays dt a) b := by
  induction a with
  | zero => intro dt b; rw [Nat.zero_add]; rfl
  | succ n ih =>
    intro dt b
    have h : n + 1 + b = (n + b) + 1 := by omega
    rw [h]
    show PyDate.addDays dt.next (n + b) = _
    rw [ih dt.next b]
    rfl

lemma addDays_within (y m : ℕ) : ∀ (k d : ℕ), d + k ≤ daysInMonth y m →
    PyDate.addDays ⟨y, m, d⟩ k = ⟨y, m, d + k⟩ := by
  intro k
  induction k with
  | zero => intro d _; rfl
  | succ n ih =>
    intro d h
    show PyDate.addDays (PyDate.next ⟨y, m, d⟩) n = _
    have hlt : d < daysInMonth y m := by omega
    rw [PyDate.next]
    simp only [hlt, if_true]
    rw [ih (d + 1) (by omega)]
    have : d + 1 + n = d + (n + 1) := by omega
    rw [this]

lemma next_month_rollover (y m : ℕ) (h1 : 1 ≤ m) (h2 : m ≤ 12) :
    PyDate.next ⟨y, m, daysInMonth y m⟩ =
      if m = 12 then ⟨y + 1, 1, 1⟩ else ⟨y, m + 1, 1⟩ := by
  rw [PyDate.next]
  rcases eq_or_lt_of_le h2 with h12 | h12
  · simp only [h12, lt_irrefl, if_false, if_pos rfl]
    norm_num
  · have hne : ¬ m = 12 := by omega
    simp only [lt_irrefl, if_false, hne]
    have : m < 12 := by omega
    simp only [this, if_true]

/-- Adding 32 days to the first of any month always lands in the following
calendar month (on day `33 - length of the starting month`, between the 2nd
and the 5th). -/
lemma first_plus_32 (y m : ℕ) (h1 : 1 ≤ m) (h2 : m ≤ 12) :
    PyDate.addDays ⟨y, m, 1⟩ 32 =
      if m = 12 then ⟨y + 1, 1, 33 - daysInMonth y m⟩
      else ⟨y, m + 1, 33 - daysInMonth y m⟩ := by
  have hg := daysInMonth_ge y m
  have hl := daysInMonth_le y m
  have hsplit : (32 : ℕ) = (daysInMonth y m - 1) + (1 + (33 - daysInMonth y m - 1)) := by
    omega
  rw [hsplit, addDays_append]
  rw [addDays_within y m (daysInMonth y m - 1) 1 (by omega)]
  have hd : 1 + (daysInMonth y m - 1) = daysInMonth y m := by omega
  rw [hd, addDays_append 1]
  have hnext : PyDate.addDays ⟨y, m, daysInMonth y m⟩ 1 =
      PyDate.next ⟨y, m, daysInMonth y m⟩ := rfl
  rw [hnext, next_month_rollover y m h1 h2]
  rcases eq_or_lt_of_le h2 with h12 | h12
  · rw [if_pos h12, if_pos h12]
    rw [addDays_within (y + 1) 1 (33 - daysInMonth y m - 1) 1 (by
      have := daysInMonth_ge (y + 1) 1
      omega)]
    have he : 1 + (33 - daysInMonth y m - 1) = 33 - daysInMonth y m := by omega
    rw [he]
  · have hne : ¬ m = 12 := by omega
    rw [if_neg hne, if_neg hne]
    rw [addDays_within y (m + 1) (33 - daysInMonth y m - 1) 1 (by
      have := daysInMonth_ge y (m + 1)
      omega)]
    have he : 1 + (33 - daysInMonth y m - 1) = 33 - daysInMonth y m := by omega
    rw [he]

/-- `target.strftime("%B")`: the full English month name. -/
def strftimeB : ℕ → String
  | 1 => "January"
  | 2 => "February"
  | 3 => "March"
  | 4 => "April"
  | 5 => "May"
  | 6 => "June"
  | 7 => "July"
  | 8 => "August"
  | 9 => "September"
  | 10 => "October"
  | 11 => "November"
  | 12 => "December"
  | _ => ""

/-- Python `str.lower()` (ASCII suffices for month names). -/
def lowerStr (s : String) : String := String.mk (s.data.map Char.toLower)

/-- Python `str.capitalize()`: first character uppercased, rest lowercased. -/
def capitalizeStr (s : String) : String :=
  match s.data with
  | [] => ""
  | ch :: rest => String.mk (ch.toUpper :: rest.map Char.toLower)

/-- Line 15 of `run.py`. -/
def visaBase : String :=
  "https://travel.state.gov/content/travel/en/legal/visa-law0/visa-bulletin"

/-- Line 24: the fixed URL template. -/
def bulletinUrl (y : ℕ) (month_name : String) : String :=
  visaBase ++ "/" ++ toString y ++ "/visa-bulletin-for-" ++ month_name ++
    "-" ++ toString y ++ ".html"

/-- One loop iteration of `get_latest_visa_bulletin_url` (lines 18-28):
candidate `i` is `today.replace(day=1) + timedelta(days=32*i)`, probed at the
templated URL; the returned triple is `(url, month_name.capitalize(), year)`. -/
def bulletinProbe (today : PyDate) (i : ℕ) : String × String × ℕ :=
  let target := PyDate.addDays ⟨today.year, today.month, 1⟩ (32 * i)
  let month_name := lowerStr (strftimeB target.month)
  (bulletinUrl target.year month_name, capitalizeStr month_name, target.year)

/-- Lines 14-30: probe `for i in [1, 0]`, return the first candidate whose
fetch yields HTTP 200, else `None, None, None`.  The network is abstracted as
the status function `fetch`. -/
def get_latest_visa_bulletin_url (today : PyDate) (fetch : String → ℕ) :
    Option (String × String × ℕ) :=
  [1, 0].findSome? fun i =>
    let cand := bulletinProbe today i
    if fetch cand.1 = 200 then some cand else none

/-- Claim C6: the bulletin locator probes exactly two candidate months — the
month after the current one first, then the current month (candidates being
first-of-month plus `32*i` days for `i = 1, 0`) — via the fixed URL template,
returns the first candidate fetching HTTP 200, and the all-`None` result when
neither does. -/
theorem bulletin_probe_next_month_first (today : PyDate) (fetch : String → ℕ)
    (h1 : 1 ≤ today.month) (h2 : today.month ≤ 12) :
    (PyDate.addDays ⟨today.year, today.month, 1⟩ 32).month =
      today.month % 12 + 1 ∧
    (PyDate.addDays ⟨today.year, today.month, 1⟩ 32).year =
      (if today.month = 12 then today.year + 1 else today.year) ∧
    get_latest_visa_bulletin_url today fetch =
      (let m1 := today.month % 12 + 1
       let y1 := if today.month = 12 then today.year + 1 else today.year
       let u1 := bulletinUrl y1 (lowerStr (strftimeB m1))
       let u0 := bulletinUrl today.year (lowerStr (strftimeB today.month))
       if fetch u1 = 200 then
         some (u1, capitalizeStr (lowerStr (strftimeB m1)), y1)
       else if fetch u0 = 200 then
         some (u0, capitalizeStr (lowerStr (strftimeB today.month)), today.year)
       else none) := by
  have hadd := first_plus_32 today.year today.month h1 h2
  have hm : (PyDate.addDays ⟨today.year, today.month, 1⟩ 32).month =
      today.month % 12 + 1 := by
    rcases eq_or_lt_of_le h2 with h12 | h12
    · rw [hadd, if_pos h12, h12]
    · have hne : ¬ today.month = 12 := by omega
      rw [hadd, if_neg hne]
      show today.month + 1 = today.month % 12 + 1
      rw [Nat.mod_eq_of_lt h12]
  have hy : (PyDate.addDays ⟨today.year, today.month, 1⟩ 32).year =
      (if today.month = 12 then today.year + 1 else today.year) := by
    rcases eq_or_lt_of_le h2 with h12 | h12
    · rw [hadd, if_pos h12, if_pos h12]
    · have hne : ¬ today.month = 12 := by omega
      rw [hadd, if_neg hne, if_neg hne]
  refine ⟨hm, hy, ?_⟩
  show ([1, 0].findSome? fun i =>
      let cand := bulletinProbe today i
      if fetch cand.1 = 200 then some cand else none) = _
  have hp1 : bulletinProbe today 1 =
      (bulletinUrl (if today.month = 12 then today.year + 1 else today.year)
         (lowerStr (strftimeB (today.month % 12 + 1))),
       capitalizeStr (lowerStr (strftimeB (today.month % 12 + 1))),
       (if today.month = 12 then today.year + 1 else today.year)) := by
    rw [bulletinProbe]
    have h32 : 32 * 1 = 32 := by norm_num
    rw [h32, hm, hy]
  have hp0 : bulletinProbe today 0 =
      (bulletinUrl today.year (lowerStr (strftimeB today.month)),
       capitalizeStr (lowerStr (strftimeB today.month)), today.year) := by
    rw [bulletinProbe]
    have h0 : 32 * 0 = 0 := by norm_num
    rw [h0]
    rfl
  simp only [List.findSome?, hp1, hp0]
  split_ifs <;> rfl

def fetch404 : String → ℕ := fun _ => 404

theorem bulletin_probe_next_month_first_witness :
    1 ≤ (PyDate.mk 2025 12 15).month ∧ (PyDate.mk 2025 12 15).month ≤ 12 ∧
    ((PyDate.addDays ⟨2025, 12, 1⟩ 32).month = 1 ∧
     (PyDate.addDays ⟨2025, 12, 1⟩ 32).year = 2026 ∧
     get_latest_visa_bulletin_url ⟨2025, 12, 15⟩ fetch404 = none) :=
  ⟨by decide, by decide, by
    have h := bulletin_probe_next_month_first ⟨2025, 12, 15⟩ fetch404
      (by decide) (by decide)
    exact ⟨h.1, h.2.1, h.2.2⟩⟩

/- --------------------------------------------------------------------------
`scrape_visa_bulletin` (`run.py` lines 80-135) and the session-state
assignment of its result (lines 204-207).  `pd.read_html` is the external
boundary: its output, the list of tables on the page, is the input here; a
table is its grid of cell strings.
-------------------------------------------------------------------------- -/

abbrev Table := List (List String)

/-- Python `str.upper()` (ASCII suffices for the fixed country labels). -/
def upperStr (s : String) : String := String.mk (s.data.map Char.toUpper)

/-- Lines 87-91: keep tables with more than 2 rows whose first row contains
"Employment" case-insensitively. -/
def employmentTable? (t : Table) : Bool :=
  decide (2 < t.length) &&
    (match t.head? with
     | some row => row.any containsEmployment
     | none => false)

/-- Lines 100-107 and 126-128 for one table: promote the first row to column
headers, set the first column as the row index, normalize labels as
`normalize_df` does, and read the cell at `(rowKey, colKey)`. -/
def lookupCell (t : Table) (rowKey colKey : String) : Option String :=
  match t with
  | [] => none
  | header :: rows =>
    match (header.drop 1).findIdx? (fun cLabel => normalizeLabel cLabel == colKey),
          rows.find? (fun r => normalizeLabel (r.headD "") == rowKey) with
    | some j, some r => (r.drop 1).get? j
    | _, _ => none

/-- The five values of the country selectbox (line 178). -/
inductive Country where
  | restOfWorld
  | china
  | india
  | mexico
  | philippines
deriving DecidableEq

/-- The three values of the preference selectbox (line 183). -/
inductive EBType where
  | eb1
  | eb2
  | eb3
deriving DecidableEq

/-- Lines 109-115. -/
def country_dict : Country → String
  | .restOfWorld => "ALL CHARGEABILITY AREAS EXCEPT THOSE LISTED"
  | .china => "CHINA- MAINLAND BORN"
  | .india => "INDIA"
  | .mexico => "MEXICO"
  | .philippines => "PHILIPPINES"

/-- Lines 117-121. -/
def eb_dict : EBType → String
  | .eb1 => "1ST"
  | .eb2 => "2ND"
  | .eb3 => "3RD"

/-- Result of `scrape_visa_bulletin`: the returned `(f_date, a_date)` pair
(`.ok (none, none)` covers the two `st.error` return paths), or an uncaught
`ValueError` from `parse_visa_date`. -/
inductive ScrapeResult where
  | ok : Option ℤ × Option ℤ → ScrapeResult
  | raisedValueError : ScrapeResult
deriving DecidableEq

/-- Lines 80-135: filter the page's tables to the employment ones, take the
first as `filing_df` and the second as `action_df`, look up the
`(preference, country)` cell in each, parse both, and return
`(f_date, a_date)` in that order. -/
def scrape_visa_bulletin (tables : List Table) (country : Country) (eb : EBType)
    (today : ℤ) : ScrapeResult :=
  let employment_tables := tables.filter employmentTable?
  if employment_tables.length < 2 then ScrapeResult.ok (none, none)
  else
    let filing_df := employment_tables.headD []
    let action_df := (employment_tables.drop 1).headD []
    let country_id := upperStr (country_dict country)
    let eb_id := eb_dict eb
    match lookupCell filing_df eb_id country_id,
          lookupCell action_df eb_id country_id with
    | some fcell, some acell =>
      match parse_visa_date (CellVal.str fcell) today,
            parse_visa_date (CellVal.str acell) today with
      | ParseResult.ok f, ParseResult.ok a => ScrapeResult.ok (f, a)
      | _, _ => ScrapeResult.raisedValueError
    | _, _ => ScrapeResult.ok (none, none)

/-- Lines 204-207: `f, a = scrape_visa_bulletin(...)`, then
`st.session_state.filing_cutoff = a` and `st.session_state.final_cutoff = f`.
The returned pair is `(filing_cutoff, final_cutoff)` as the calculator reads
them from the session. -/
def session_cutoffs (tables : List Table) (country : Country) (eb : EBType)
    (today : ℤ) : ScrapeResult :=
  match scrape_visa_bulletin tables country eb today with
  | ScrapeResult.ok fa => ScrapeResult.ok (fa.2, fa.1)
  | ScrapeResult.raisedValueError => ScrapeResult.raisedValueError

def filingTableEx : Table :=
  [["Employment- based", "All Chargeability Areas Except Those Listed",
    "CHINA- mainland born", "INDIA"],
   ["1st", "C", "01JAN12", "01JAN12"],
   ["2nd", "01JAN25", "01FEB21", "01JAN13"],
   ["3rd", "C", "01AUG21", "01MAR13"]]

def actionTableEx : Table :=
  [["Employment- based", "All Chargeability Areas Except Those Listed",
    "CHINA- mainland born", "INDIA"],
   ["1st", "C", "01NOV22", "01NOV22"],
   ["2nd", "01JUN24", "01DEC20", "01JUL12"],
   ["3rd", "C", "01MAY21", "01DEC12"]]

/-- Claim C1, counterexample: on a bulletin whose first matching employment
table (the one the source names `filing_df`) holds 01JAN25 for (EB-2, Rest of
World) and whose second (`action_df`) holds 01JUN24, extraction returns the
pair `(01JAN25, 01JUN24)` in that order, but the session assignment stores
`filing_cutoff = 01JUN24` and `final_cutoff = 01JAN25` — the swap of the
extracted pair, not the pair itself. -/
theorem extraction_order_counterexample :
    scrape_visa_bulletin [filingTableEx, actionTableEx]
        Country.restOfWorld EBType.eb2 0 =
      ScrapeResult.ok (some (toDayZ 2025 1 1), some (toDayZ 2024 6 1)) ∧
    session_cutoffs [filingTableEx, actionTableEx]
        Country.restOfWorld EBType.eb2 0 =
      ScrapeResult.ok (some (toDayZ 2024 6 1), some (toDayZ 2025 1 1)) ∧
    ¬ session_cutoffs [filingTableEx, actionTableEx]
        Country.restOfWorld EBType.eb2 0 =
      ScrapeResult.ok (some (toDayZ 2025 1 1), some (toDayZ 2024 6 1)) := by
  refine ⟨rfl, rfl, by decide⟩

/-- Claim C1 as amended: for every fetched bulletin and pair, the calculator
receives the SWAP of the extracted pair: when filtering isolates the two
employment tables, the first (`filing_df`) cell parses to `f` and the second
(`action_df`) cell parses to `a`, the extraction returns `(f, a)` and the
session assignment of lines 204-207 hands the calculator
`filing_cutoff = a` (the second, final-action-table value) and
`final_cutoff = f` (the first, filing-table value). -/
theorem session_swaps_extracted_pair (tables : List Table) (country : Country)
    (eb : EBType) (today : ℤ) (filing_df action_df : Table) (rest : List Table)
    (fcell acell : String) (f a : Option ℤ)
    (hfilter : tables.filter employmentTable? = filing_df :: action_df :: rest)
    (hf : lookupCell filing_df (eb_dict eb) (upperStr (country_dict country)) =
      some fcell)
    (ha : lookupCell action_df (eb_dict eb) (upperStr (country_dict country)) =
      some acell)
    (hpf : parse_visa_date (CellVal.str fcell) today = ParseResult.ok f)
    (hpa : parse_visa_date (CellVal.str acell) today = ParseResult.ok a) :
    scrape_visa_bulletin tables country eb today = ScrapeResult.ok (f, a) ∧
    session_cutoffs tables country eb today = ScrapeResult.ok (a, f) := by
  have hs : scrape_visa_bulletin tables country eb today = ScrapeResult.ok (f, a) := by
    simp only [scrape_visa_bulletin, hfilter]
    rw [if_neg (by simp only [List.length_cons]; omega)]
    simp only [List.headD_cons, List.drop_succ_cons, List.drop_zero,
      hf, ha, hpf, hpa]
  refine ⟨hs, ?_⟩
  simp only [session_cutoffs, hs]

theorem session_swaps_extracted_pair_witness :
    ([filingTableEx, actionTableEx].filter employmentTable? =
      filingTableEx :: actionTableEx :: []) ∧
    (lookupCell filingTableEx (eb_dict EBType.eb2)
        (upperStr (country_dict Country.restOfWorld)) = some "01JAN25") ∧
    (lookupCell actionTableEx (eb_dict EBType.eb2)
        (upperStr (country_dict Country.restOfWorld)) = some "01JUN24") ∧
    (parse_visa_date (CellVal.str "01JAN25") 0 =
      ParseResult.ok (some (toDayZ 2025 1 1))) ∧
    (parse_visa_date (CellVal.str "01JUN24") 0 =
      ParseResult.ok (some (toDayZ 2024 6 1))) ∧
    (scrape_visa_bulletin [filingTableEx, actionTableEx]
        Country.restOfWorld EBType.eb2 0 =
      ScrapeResult.ok (some (toDayZ 2025 1 1), some (toDayZ 2024 6 1)) ∧
     session_cutoffs [filingTableEx, actionTableEx]
        Country.restOfWorld EBType.eb2 0 =
      ScrapeResult.ok (some (toDayZ 2024 6 1), some (toDayZ 2025 1 1))) :=
  ⟨rfl, rfl, rfl, rfl, rfl,
   session_swaps_extracted_pair [filingTableEx, actionTableEx]
     Country.restOfWorld EBType.eb2 0 filingTableEx actionTableEx []
     "01JAN25" "01JUN24" (some (toDayZ 2025 1 1)) (some (toDayZ 2024 6 1))
     rfl rfl rfl rfl rfl⟩

/- --------------------------------------------------------------------------
Missing-cutoff behaviour of the script body (`run.py` lines 193-212, 220-261
and 266-329).  When both bulletin probes fail, lines 201-207 are skipped and
the session cutoffs keep their initial `None`; a `"U"` cell likewise stores
`None`.  The session values are therefore `Option` dates downstream.
-------------------------------------------------------------------------- -/

inductive PyError where
  | typeError : PyError
deriving DecidableEq

/-- Observable outcome of the priority-date check block (lines 220-261). -/
inductive CheckResult where
  | skipped : CheckResult
  | shown : ℤ → ℤ → CheckResult
  | raised : PyError → CheckResult
deriving DecidableEq

/-- Lines 220-261: the block is guarded by `if filing_cutoff:` (`None` is
falsy, so the block is skipped); inside, lines 226-227 (and 247-248) compute
`(i140_user_filed - filing_cutoff).days` and
`(i140_user_filed - final_cutoff).days` — subtracting `None` raises
`TypeError`. -/
def priority_check_block (pd : ℤ) (filing_cutoff final_cutoff : Option ℤ) :
    CheckResult :=
  match filing_cutoff with
  | none => CheckResult.skipped
  | some fc =>
    match final_cutoff with
    | none => CheckResult.raised PyError.typeError
    | some fnc => CheckResult.shown (pd - fc) (pd - fnc)

/-- Observable outcome of the calculation block (lines 266-329). -/
inductive CalcResult where
  | ok : List (String × ℤ) → CalcResult
  | raised : PyError → CalcResult
deriving DecidableEq

/-- Lines 266-329 as a function of the session cutoffs: the block is guarded
only by `if niw_start:` — always truthy for a date input — and lines 302-303
subtract the cutoffs from the priority date, so a `None` cutoff raises
`TypeError` before any milestone is produced. -/
def calc_block (am : ℚ) (c : CaseInputs) (filing_cutoff final_cutoff : Option ℤ) :
    CalcResult :=
  match filing_cutoff with
  | none => CalcResult.raised PyError.typeError
  | some fc =>
    match final_cutoff with
    | none => CalcResult.raised PyError.typeError
    | some fnc => CalcResult.ok (milestones am c fc fnc)

/-- Claim C5 (code bug): with a missing cutoff the backlog is indeed never
silently computed with a default — but not because the computation is
skipped: only the priority-check block is guarded (`skipped`); the
calculation block runs regardless and raises an uncaught `TypeError` (a fatal
error) whenever either session cutoff is `None`, instead of surfacing "no
bulletin data available". -/
theorem missing_cutoff_fatal (am : ℚ) (c : CaseInputs) (d : ℤ) :
    priority_check_block (priority_date c) none none = CheckResult.skipped ∧
    priority_check_block (priority_date c) none (some d) = CheckResult.skipped ∧
    priority_check_block (priority_date c) (some d) none =
      CheckResult.raised PyError.typeError ∧
    calc_block am c none none = CalcResult.raised PyError.typeError ∧
    calc_block am c none (some d) = CalcResult.raised PyError.typeError ∧
    calc_block am c (some d) none = CalcResult.raised PyError.typeError :=
  ⟨rfl, rfl, rfl, rfl, rfl, rfl⟩
